import Mathlib

/-!
Verification of the photos2map core pipeline: directory scan with EXIF GPS
extraction (`internal/extract.ExtractGPSData`), GPX rendering
(`internal/output.GenerateGPX`), HTML map rendering
(`internal/output.GenerateMap`) and the top-level `run` in
`cmd/photos2map/root.go`.

Modelling conventions:
* Go strings are `List Char` (`GoStr`).
* `float64` coordinates are modelled as `ℚ`. The program performs no
  arithmetic on coordinates — they are read from the EXIF library and carried
  through unchanged into the output document — so an exact numeric type is a
  faithful carrier for the data flow.
* The filesystem walk (`filepath.Walk`) is modelled by the ordered list of
  callback invocations it performs: each `WalkEntry` records the path, the
  `info.IsDir()` bit, and whether a traversal error (`err != nil`) was handed
  to the callback for that entry.
* `exif.ExtractEXIF` is an oracle `GoStr → Option (ℚ × ℚ)` returning
  `(lat, lon)` on success and `none` on any of its error paths (open failure,
  decode failure, missing GPS tags — the Go code only branches on `err == nil`).
* `log.Fatalf` (process termination) is modelled by `Except.error`; renderer
  side effects use a tiny filesystem state `FS` plus an `Outcome`.
-/

namespace Photos2Map

abbrev GoStr := List Char

/-- Go `strings.ToLower`, as used on ASCII extensions (per-character lowering). -/
def goToLower (s : GoStr) : GoStr := s.map Char.toLower

/-- Helper for `filepath.Ext`: walk the reversed path; stop at a path
separator with no extension, or return the dot plus the accumulated suffix. -/
def extAux : GoStr → GoStr → GoStr
  | _, [] => []
  | acc, c :: rest =>
    if c = '/' then []
    else if c = '.' then c :: acc
    else extAux (c :: acc) rest

/-- Go `path/filepath.Ext`: the suffix beginning at the final dot in the final
slash-separated element of the path; empty if there is no dot. -/
def filepathExt (p : GoStr) : GoStr := extAux [] p.reverse

/-- Go `path/filepath.Ext` on Unix: "." for empty path, strip trailing
slashes, drop everything up to the last separator, "/" if only separators. -/
def filepathBase (p : GoStr) : GoStr :=
  if p = [] then ['.']
  else
    let r := p.reverse.dropWhile (fun c => c = '/')
    let baseRev := r.takeWhile (fun c => c != '/')
    if baseRev = [] then ['/'] else baseRev.reverse

/-- Go `strings.TrimSuffix`. -/
def trimSuffix (s suffix : GoStr) : GoStr :=
  if suffix.isSuffixOf s then s.take (s.length - suffix.length) else s

/-- The dynamic payload carried in `opts.GeoData.Value` (a Go `interface{}`):
either a `[]float64` or a value of some other dynamic type (the type
assertion `data.Value.([]float64)` fails on the latter). -/
inductive GoValue where
  | floats : List ℚ → GoValue
  | other : GoValue
deriving DecidableEq

/-- `go-echarts` `opts.GeoData`: a named point with a type-erased value. -/
structure GeoData where
  Name : GoStr
  Value : GoValue
deriving DecidableEq

/-- One invocation of the `filepath.Walk` callback: the visited path, its
`info.IsDir()` bit (ignored by the code), and whether a traversal error was
passed in for this entry. -/
structure WalkEntry where
  path : GoStr
  isDir : Bool
  walkErr : Bool
deriving DecidableEq

/-- The EXIF reader `exif.ExtractEXIF` as an oracle: `some (lat, lon)` when
extraction succeeds, `none` on any error. -/
abbrev Exif := GoStr → Option (ℚ × ℚ)

/-- The extension switch in `ExtractGPSData`:
`case ".jpg", ".jpeg", ".png"`. -/
def isSupportedExt (ext : GoStr) : Bool :=
  ext == ".jpg".data || ext == ".jpeg".data || ext == ".png".data

/-- The body of the `filepath.Walk` callback in `extract.ExtractGPSData`.
Returns the updated accumulator and the updated trace of paths passed to
`exif.ExtractEXIF`; `Except.error` models returning the non-nil traversal
error (which makes `filepath.Walk` abort). -/
def walkFn (exif : Exif) (e : WalkEntry) (gpsData : List GeoData)
    (calls : List GoStr) : Except Unit (List GeoData × List GoStr) :=
  if e.walkErr then Except.error ()
  else
    let base := filepathBase e.path
    let name := trimSuffix base (filepathExt base)
    let ext := goToLower (filepathExt e.path)
    if isSupportedExt ext then
      match exif e.path with
      | some ll =>
        Except.ok (gpsData ++ [⟨name, GoValue.floats [ll.2, ll.1]⟩],
                   calls ++ [e.path])
      | none => Except.ok (gpsData, calls ++ [e.path])
    else Except.ok (gpsData, calls)

/-- `filepath.Walk` driving the callback over the entries in traversal order;
a callback error aborts the walk. -/
def walkGo (exif : Exif) :
    List WalkEntry → List GeoData → List GoStr →
    Except Unit (List GeoData × List GoStr)
  | [], acc, calls => Except.ok (acc, calls)
  | e :: rest, acc, calls =>
    match walkFn exif e acc calls with
    | Except.error _ => Except.error ()
    | Except.ok (acc2, calls2) => walkGo exif rest acc2 calls2

/-- `extract.ExtractGPSData`: walk the directory, accumulate GPS points.
`Except.error` models the `log.Fatalf` on a walk error (process terminates).
The second component of the result is the trace of paths handed to
`exif.ExtractEXIF`. -/
def ExtractGPSData (exif : Exif) (entries : List WalkEntry) :
    Except Unit (List GeoData × List GoStr) :=
  walkGo exif entries [] []

/-- Specification-side description of one scanned entry: a supported-extension
path contributes `some` GeoPoint exactly when extraction succeeds, named with
the base filename without extension, carrying `[lon, lat]`. -/
def geoOfEntry (exif : Exif) (e : WalkEntry) : Option GeoData :=
  if isSupportedExt (goToLower (filepathExt e.path)) then
    (exif e.path).map fun ll =>
      ⟨trimSuffix (filepathBase e.path) (filepathExt (filepathBase e.path)),
       GoValue.floats [ll.2, ll.1]⟩
  else none

/-- Specification-side scan result: one GeoPoint per successfully extracted
supported entry, in traversal order. -/
def scanResult (exif : Exif) (entries : List WalkEntry) : List GeoData :=
  entries.filterMap (geoOfEntry exif)

/-- Specification-side trace of EXIF-reader invocations: exactly the visited
paths with a supported (lowercased) extension, in traversal order. -/
def scanCalls (entries : List WalkEntry) : List GoStr :=
  (entries.filter fun e =>
    isSupportedExt (goToLower (filepathExt e.path))).map WalkEntry.path

/-- `go-gpx` `gpx.WptType`, restricted to the fields the program sets. -/
structure WptType where
  Lat : ℚ
  Lon : ℚ
  Name : GoStr
deriving DecidableEq

/-- `go-gpx` `gpx.GPX`, restricted to the fields the program sets.
`Wpt` models the Go `[]*gpx.WptType`; `none` is a nil pointer slot. -/
structure GPX where
  Version : GoStr
  Creator : GoStr
  Wpt : List (Option WptType)
deriving DecidableEq

/-- One iteration of the loop body in `GenerateGPX`: the type assertion
`data.Value.([]float64)` plus the `len(coords) != 2` check; on success the
waypoint takes `lat := coords[1]`, `lon := coords[0]`. `none` is the
`continue` branch that leaves `g.Wpt[i]` nil. -/
def wptSlot (data : GeoData) : Option WptType :=
  match data.Value with
  | GoValue.floats [lon, lat] => some ⟨lat, lon, data.Name⟩
  | GoValue.floats _ => none
  | GoValue.other => none

/-- The `for i, data := range gpsData` loop of `GenerateGPX`: first component
is the waypoint array (`make([]*gpx.WptType, len(gpsData))` written
positionally, nil where the loop hit `continue`), second component the names
for which the `log.Printf("Invalid GPS data for %s, skipping...")`
diagnostic fired, in order. -/
def gpxLoop : List GeoData → List (Option WptType) × List GoStr
  | [] => ([], [])
  | d :: rest =>
    let r := gpxLoop rest
    match wptSlot d with
    | some w => (some w :: r.1, r.2)
    | none => (none :: r.1, d.Name :: r.2)

/-- The GPX document `g` built by `GenerateGPX` before any I/O, paired with
the skip diagnostics emitted while building it. -/
def generateGPXDoc (gpsData : List GeoData) : GPX × List GoStr :=
  (⟨"1.1".data, "photos2map".data, (gpxLoop gpsData).1⟩, (gpxLoop gpsData).2)

/-- Whether the `GeoData.Value` payload fails `GenerateGPX`'s defensive check
(not a `[]float64` of length exactly 2). -/
def isMalformed : GoValue → Bool
  | GoValue.floats l => l.length != 2
  | GoValue.other => true

/-- Success/failure bits of the I/O environment a renderer runs in:
whether `os.Create`, `xml.MarshalIndent`, and `geo.Render` succeed. -/
structure RenderEnv where
  createOk : Bool
  marshalOk : Bool
  renderOk : Bool

/-- The output directory contents: the bytes of `out/output.gpx` and
`out/map.html` (`none` = file absent). -/
structure FS where
  gpxFile : Option GoStr
  mapFile : Option GoStr
deriving DecidableEq

/-- How a renderer call ends: `fatalExit` models `log.Fatalf` (process
termination on output-file creation failure); `completed b` models a normal
return, with `b` recording whether a serialization/render error was logged
(`log.Errorf`) on the way. -/
inductive Outcome where
  | fatalExit
  | completed (errorLogged : Bool)
deriving DecidableEq

/-- Go `encoding/xml.Header`, prepended verbatim by `GenerateGPX`. -/
def xmlHeader : GoStr := "<?xml version=\"1.0\" encoding=\"UTF-8\"?>\n".data

/-- `output.GenerateGPX`. `marshal` stands for `xml.MarshalIndent` on the
document (an opaque pure serializer from the stdlib; on a marshal error the
Go code logs and continues with nil bytes, so only `xml.Header` is written).
Creation failure of `out/output.gpx` hits `log.Fatalf` and terminates
without touching the filesystem state. -/
def GenerateGPX (marshal : GPX → GoStr) (env : RenderEnv) (fs : FS)
    (gpsData : List GeoData) : FS × Outcome :=
  let g := (generateGPXDoc gpsData).1
  if env.createOk then
    let bytes := if env.marshalOk then marshal g else []
    ({ fs with gpxFile := some (xmlHeader ++ bytes) },
     Outcome.completed (!env.marshalOk))
  else (fs, Outcome.fatalExit)

/-- `output.GenerateMap`. `render` stands for `geo.Render` of the configured
chart on the series data (opaque stdlib/library serialization; on a render
error the code logs via `log.Errorf` and continues — the created file is
left with whatever was flushed, modelled as empty). Creation failure of
`out/map.html` hits `log.Fatalf`. -/
def GenerateMap (render : List GeoData → GoStr) (env : RenderEnv) (fs : FS)
    (gpsData : List GeoData) : FS × Outcome :=
  if env.createOk then
    ({ fs with mapFile := some (if env.renderOk then render gpsData else []) },
     Outcome.completed (!env.renderOk))
  else (fs, Outcome.fatalExit)

/-- The observable console message of the empty branch of `run`:
`fmt.Println("No GPS data found in the images.")`. -/
inductive RunMsg where
  | noGPSData
deriving DecidableEq

/-- The output-dispatch part of `run` in `cmd/photos2map/root.go`: with a
non-empty point list, render GPX when the output flag equals "gpx",
otherwise render the HTML map; with an empty list, print the informational
message and return normally. -/
def runGo (marshal : GPX → GoStr) (render : List GeoData → GoStr)
    (env : RenderEnv) (fs : FS) (outputType : GoStr)
    (gpsData : List GeoData) : FS × Outcome × Option RunMsg :=
  if gpsData.length > 0 then
    if outputType == "gpx".data then
      let r := GenerateGPX marshal env fs gpsData
      (r.1, r.2, none)
    else
      let r := GenerateMap render env fs gpsData
      (r.1, r.2, none)
  else (fs, Outcome.completed false, some RunMsg.noGPSData)

/-- The full `run` pipeline: scan the directory, then dispatch on the result;
a traversal error inside the scan already terminated the process
(`Except.error`). -/
def runFull (exif : Exif) (entries : List WalkEntry) (marshal : GPX → GoStr)
    (render : List GeoData → GoStr) (env : RenderEnv) (fs : FS)
    (outputType : GoStr) : Except Unit (FS × Outcome × Option RunMsg) :=
  match ExtractGPSData exif entries with
  | Except.error _ => Except.error ()
  | Except.ok gc => Except.ok (runGo marshal render env fs outputType gc.1)

/-! Concrete sample data used to instantiate the theorems below. -/

/-- A sample directory scan: one image with GPS data, one image whose EXIF
extraction fails, one unsupported file. -/
def entriesW : List WalkEntry :=
  [⟨"photos/IMG_1.JPG".data, false, false⟩,
   ⟨"photos/bad.jpg".data, false, false⟩,
   ⟨"photos/notes.txt".data, false, false⟩]

/-- A sample EXIF oracle: succeeds only on `photos/IMG_1.JPG`. -/
def exifW : Exif := fun p =>
  if p == "photos/IMG_1.JPG".data then some (1/2, -3/4) else none

/-- A walk entry carrying a traversal error (e.g. an unreadable
subdirectory). -/
def errEntryW : WalkEntry := ⟨"photos/sub".data, true, true⟩

/-- The round-trip input of the spec's scenario 5. -/
def roundTripInput : List GeoData :=
  [⟨"Image1".data, GoValue.floats [(-0.1276 : ℚ), (51.5074 : ℚ)]⟩,
   ⟨"Image2".data, GoValue.floats [(2.3522 : ℚ), (48.8566 : ℚ)]⟩]

/-- A sample serializer standing in for `xml.MarshalIndent`. -/
def marshalW : GPX → GoStr := fun g => g.Version ++ g.Creator

/-- A sample chart renderer standing in for `geo.Render`. -/
def renderW : List GeoData → GoStr := fun l => (l.map GeoData.Name).flatten

/-- An empty output directory. -/
def fsW : FS := ⟨none, none⟩

/-- An EXIF oracle that always fails (no image has GPS tags). -/
def exifNoneW : Exif := fun _ => none

/-- A directory entry whose name carries a supported image extension. -/
def dirEntryW : WalkEntry := ⟨"photos/album.jpg".data, true, false⟩

/-- A point list with a malformed (wrong-arity) payload followed by a
well-formed one. -/
def malformedInput : List GeoData :=
  [⟨"Bad1".data, GoValue.floats [(7 : ℚ)]⟩,
   ⟨"Image1".data, GoValue.floats [(-0.1276 : ℚ), (51.5074 : ℚ)]⟩]

/-- A fixed render environment in which all I/O succeeds. -/
def envOkW : RenderEnv := ⟨true, true, true⟩

/-! Helper lemmas about the walk. -/

theorem walkGo_no_err (exif : Exif) (l : List WalkEntry) :
    ∀ (acc : List GeoData) (calls : List GoStr),
    (∀ e ∈ l, e.walkErr = false) →
    walkGo exif l acc calls =
      Except.ok (acc ++ scanResult exif l, calls ++ scanCalls l) := by
  induction l with
  | nil =>
    intro acc calls _
    simp [walkGo, scanResult, scanCalls]
  | cons e rest ih =>
    intro acc calls h
    have he : e.walkErr = false := h e (by simp)
    have hrest : ∀ x ∈ rest, x.walkErr = false := fun x hx => h x (by simp [hx])
    by_cases hs : isSupportedExt (goToLower (filepathExt e.path)) = true
    · cases hex : exif e.path with
      | some ll =>
        simp only [walkGo, walkFn, he, Bool.false_eq_true, if_false, hs,
          if_true, hex]
        rw [ih _ _ hrest]
        simp [scanResult, scanCalls, geoOfEntry, hs, hex,
          List.filterMap_cons, List.filter_cons]
      | none =>
        simp only [walkGo, walkFn, he, Bool.false_eq_true, if_false, hs,
          if_true, hex]
        rw [ih _ _ hrest]
        simp [scanResult, scanCalls, geoOfEntry, hs, hex,
          List.filterMap_cons, List.filter_cons]
    · simp only [walkGo, walkFn, he, Bool.false_eq_true, if_false, hs,
        if_false]
      rw [ih _ _ hrest]
      simp [scanResult, scanCalls, geoOfEntry, hs,
        List.filterMap_cons, List.filter_cons]

theorem walkGo_append (exif : Exif) (l₁ l₂ : List WalkEntry) :
    ∀ (acc : List GeoData) (calls : List GoStr),
    walkGo exif (l₁ ++ l₂) acc calls =
      match walkGo exif l₁ acc calls with
      | Except.error _ => Except.error ()
      | Except.ok p => walkGo exif l₂ p.1 p.2 := by
  induction l₁ with
  | nil =>
    intro acc calls
    simp [walkGo]
  | cons e rest ih =>
    intro acc calls
    show walkGo exif (e :: (rest ++ l₂)) acc calls = _
    simp only [walkGo]
    cases hf : walkFn exif e acc calls with
    | error u => rfl
    | ok p => exact ih p.1 p.2

theorem walkGo_fst_calls_irrel (exif : Exif) (l : List WalkEntry) :
    ∀ (acc : List GeoData) (c₁ c₂ : List GoStr),
    (walkGo exif l acc c₁).map Prod.fst =
      (walkGo exif l acc c₂).map Prod.fst := by
  induction l with
  | nil =>
    intro acc c₁ c₂
    simp [walkGo, Except.map]
  | cons e rest ih =>
    intro acc c₁ c₂
    by_cases he : e.walkErr = true
    · simp [walkGo, walkFn, he]
    · simp only [Bool.not_eq_true] at he
      by_cases hs : isSupportedExt (goToLower (filepathExt e.path)) = true
      · cases hex : exif e.path with
        | some ll =>
          simp only [walkGo, walkFn, he, Bool.false_eq_true, if_false, hs,
            if_true, hex]
          exact ih _ _ _
        | none =>
          simp only [walkGo, walkFn, he, Bool.false_eq_true, if_false, hs,
            if_true, hex]
          exact ih _ _ _
      · simp only [walkGo, walkFn, he, Bool.false_eq_true, if_false, hs,
          if_false]
        exact ih _ _ _

theorem extractGPSData_no_err (exif : Exif) (entries : List WalkEntry)
    (h : ∀ e ∈ entries, e.walkErr = false) :
    ExtractGPSData exif entries =
      Except.ok (scanResult exif entries, scanCalls entries) := by
  unfold ExtractGPSData
  rw [walkGo_no_err exif entries [] [] h]
  simp

/-! Helper lemmas about the GenerateGPX loop. -/

theorem gpxLoop_fst (l : List GeoData) : (gpxLoop l).1 = l.map wptSlot := by
  induction l with
  | nil => simp [gpxLoop]
  | cons d rest ih =>
    simp only [gpxLoop, List.map_cons]
    cases hd : wptSlot d with
    | some w => simp [hd, ih]
    | none => simp [hd, ih]

theorem gpxLoop_snd (l : List GeoData) :
    (gpxLoop l).2 = l.filterMap fun d =>
      match wptSlot d with
      | none => some d.Name
      | some _ => none := by
  induction l with
  | nil => simp [gpxLoop]
  | cons d rest ih =>
    simp only [gpxLoop, List.filterMap_cons]
    cases hd : wptSlot d with
    | some w => simp [hd, ih]
    | none => simp [hd, ih]

theorem wptSlot_of_malformed (d : GeoData) (h : isMalformed d.Value = true) :
    wptSlot d = none := by
  obtain ⟨n, v⟩ := d
  cases v with
  | other => rfl
  | floats l =>
    match l with
    | [] => rfl
    | [_] => rfl
    | [_, _] => simp [isMalformed] at h
    | _ :: _ :: _ :: _ => rfl

theorem wptSlot_of_pair (d : GeoData) (lon lat : ℚ)
    (h : d.Value = GoValue.floats [lon, lat]) :
    wptSlot d = some ⟨lat, lon, d.Name⟩ := by
  obtain ⟨n, v⟩ := d
  simp only at h
  subst h
  rfl

theorem mem_of_getElem_opt {α : Type} (l : List α) (i : ℕ) (a : α)
    (h : l[i]? = some a) : a ∈ l := by
  induction l generalizing i with
  | nil => simp at h
  | cons x xs ih =>
    cases i with
    | zero =>
      simp only [List.getElem?_cons_zero, Option.some.injEq] at h
      simp [h]
    | succ n =>
      simp only [List.getElem?_cons_succ] at h
      exact List.mem_cons_of_mem _ (ih n h)

theorem walkGo_calls_mono (exif : Exif) (l : List WalkEntry) :
    ∀ (acc : List GeoData) (calls : List GoStr) gps cs,
    walkGo exif l acc calls = Except.ok (gps, cs) →
    ∀ p ∈ cs, p ∈ calls ∨ isSupportedExt (goToLower (filepathExt p)) = true := by
  induction l with
  | nil =>
    intro acc calls gps cs h p hp
    simp only [walkGo, Except.ok.injEq, Prod.mk.injEq] at h
    left
    rw [h.2]
    exact hp
  | cons e rest ih =>
    intro acc calls gps cs h p hp
    by_cases he : e.walkErr = true
    · simp [walkGo, walkFn, he] at h
    · simp only [Bool.not_eq_true] at he
      by_cases hs : isSupportedExt (goToLower (filepathExt e.path)) = true
      · cases hex : exif e.path with
        | some ll =>
          simp only [walkGo, walkFn, he, Bool.false_eq_true, if_false, hs,
            if_true, hex] at h
          rcases ih _ _ _ _ h p hp with hmem | hsup
          · rcases List.mem_append.mp hmem with h1 | h2
            · exact Or.inl h1
            · right
              rw [List.mem_singleton.mp h2]
              exact hs
          · exact Or.inr hsup
        | none =>
          simp only [walkGo, walkFn, he, Bool.false_eq_true, if_false, hs,
            if_true, hex] at h
          rcases ih _ _ _ _ h p hp with hmem | hsup
          · rcases List.mem_append.mp hmem with h1 | h2
            · exact Or.inl h1
            · right
              rw [List.mem_singleton.mp h2]
              exact hs
          · exact Or.inr hsup
      · simp only [walkGo, walkFn, he, Bool.false_eq_true, if_false, hs,
          if_false] at h
        exact ih _ _ _ _ h p hp

/-- C1: for a scan whose traversal completed without error, the returned
sequence is exactly one GeoPoint per supported-extension entry whose EXIF
extraction succeeded, in traversal order, each named with the base filename
without extension and carrying `[lon, lat]`; entries whose extraction failed
contribute nothing (`geoOfEntry` spells out that per-entry description). -/
theorem extract_one_point_per_success (exif : Exif) (entries : List WalkEntry)
    (h : ∀ e ∈ entries, e.walkErr = false) :
    ExtractGPSData exif entries =
      Except.ok (entries.filterMap (geoOfEntry exif), scanCalls entries) :=
  extractGPSData_no_err exif entries h

theorem extract_one_point_per_success_witness :
    ExtractGPSData exifW entriesW =
      Except.ok ([⟨"IMG_1".data, GoValue.floats [-3/4, 1/2]⟩],
        ["photos/IMG_1.JPG".data, "photos/bad.jpg".data]) := by
  rw [extract_one_point_per_success exifW entriesW (by decide)]
  rfl

/-- C3: every path handed to the EXIF reader during a completed scan has a
supported extension (`.jpg`, `.jpeg`, `.png`, compared after lowercasing);
files with any other extension are never passed to `ExtractEXIF`. -/
theorem exif_called_only_on_supported (exif : Exif) (entries : List WalkEntry)
    (gps : List GeoData) (calls : List GoStr)
    (h : ExtractGPSData exif entries = Except.ok (gps, calls)) :
    ∀ p ∈ calls, isSupportedExt (goToLower (filepathExt p)) = true := by
  intro p hp
  rcases walkGo_calls_mono exif entries [] [] gps calls h p hp with h' | h'
  · simp at h'
  · exact h'

theorem exif_called_only_on_supported_witness :
    isSupportedExt (goToLower (filepathExt "photos/bad.jpg".data)) = true := by
  have h := exif_called_only_on_supported exifW entriesW
    [⟨"IMG_1".data, GoValue.floats [-3/4, 1/2]⟩]
    ["photos/IMG_1.JPG".data, "photos/bad.jpg".data] (by rfl)
  exact h "photos/bad.jpg".data (by decide)

/-- C4: with the walk error-free up to the entry in question, a per-file
extraction failure only drops that file — the resulting point sequence is
the one the scan would produce without the file, the walk continuing over
the remaining entries — while a traversal error on an entry aborts the whole
walk with the fatal `log.Fatalf` path, regardless of what follows. -/
theorem scan_error_severity (exif : Exif) (pre post : List WalkEntry)
    (e : WalkEntry) (hpre : ∀ x ∈ pre, x.walkErr = false) :
    (e.walkErr = true →
       ExtractGPSData exif (pre ++ e :: post) = Except.error ()) ∧
    (e.walkErr = false → exif e.path = none →
       (ExtractGPSData exif (pre ++ e :: post)).map Prod.fst =
         (ExtractGPSData exif (pre ++ post)).map Prod.fst) := by
  constructor
  · intro he
    unfold ExtractGPSData
    rw [walkGo_append, walkGo_no_err exif pre [] [] hpre]
    simp [walkGo, walkFn, he]
  · intro he hex
    unfold ExtractGPSData
    rw [walkGo_append, walkGo_append, walkGo_no_err exif pre [] [] hpre]
    by_cases hs : isSupportedExt (goToLower (filepathExt e.path)) = true
    · simp only [walkGo, walkFn, he, Bool.false_eq_true, if_false, hs,
        if_true, hex]
      exact walkGo_fst_calls_irrel exif post _ _ _
    · simp only [walkGo, walkFn, he, Bool.false_eq_true, if_false, hs,
        if_false]

theorem scan_error_severity_witness :
    ExtractGPSData exifW (entriesW ++ errEntryW :: []) = Except.error () :=
  (scan_error_severity exifW entriesW [] errEntryW (by decide)).1 (by decide)

/-- C2: the generated GPX document carries version "1.1" and creator
"photos2map", has one waypoint slot per input GeoPoint, and every
well-formed point (a two-element `[]float64` payload `[lon, lat]`) yields a
waypoint with `lat`, `lon` and a matching name at its position; on the
spec's round-trip input the two waypoints carry exactly the stated
coordinates and names. -/
theorem gpx_doc_per_point (gpsData : List GeoData) :
    ((generateGPXDoc gpsData).1.Version = "1.1".data ∧
     (generateGPXDoc gpsData).1.Creator = "photos2map".data ∧
     (generateGPXDoc gpsData).1.Wpt.length = gpsData.length) ∧
    (∀ (i : ℕ) (d : GeoData) (lon lat : ℚ), gpsData[i]? = some d →
       d.Value = GoValue.floats [lon, lat] →
       (generateGPXDoc gpsData).1.Wpt[i]? = some (some ⟨lat, lon, d.Name⟩)) ∧
    (generateGPXDoc roundTripInput).1.Wpt =
      [some ⟨(51.5074 : ℚ), (-0.1276 : ℚ), "Image1".data⟩,
       some ⟨(48.8566 : ℚ), (2.3522 : ℚ), "Image2".data⟩] := by
  refine ⟨⟨rfl, rfl, ?_⟩, ?_, ?_⟩
  · simp [generateGPXDoc, gpxLoop_fst]
  · intro i d lon lat hi hv
    simp [generateGPXDoc, gpxLoop_fst, List.getElem?_map, hi,
      wptSlot_of_pair d lon lat hv]
  · rfl

theorem gpx_doc_per_point_witness :
    (generateGPXDoc roundTripInput).1.Wpt[0]? =
      some (some ⟨(51.5074 : ℚ), (-0.1276 : ℚ), "Image1".data⟩) :=
  (gpx_doc_per_point roundTripInput).2.1 0
    ⟨"Image1".data, GoValue.floats [(-0.1276 : ℚ), (51.5074 : ℚ)]⟩
    (-0.1276) 51.5074 rfl rfl

/-- C5: a GeoPoint whose payload is not a two-element float array is skipped
(its waypoint slot is nil) and a diagnostic naming it is emitted, while every
well-formed point is still rendered as a waypoint at its position. -/
theorem gpx_malformed_skipped (gpsData : List GeoData) :
    (∀ (i : ℕ) (d : GeoData), gpsData[i]? = some d →
       isMalformed d.Value = true →
       (generateGPXDoc gpsData).1.Wpt[i]? = some none ∧
         d.Name ∈ (generateGPXDoc gpsData).2) ∧
    (∀ (i : ℕ) (d : GeoData) (lon lat : ℚ), gpsData[i]? = some d →
       d.Value = GoValue.floats [lon, lat] →
       (generateGPXDoc gpsData).1.Wpt[i]? = some (some ⟨lat, lon, d.Name⟩)) := by
  constructor
  · intro i d hi hm
    constructor
    · simp [generateGPXDoc, gpxLoop_fst, List.getElem?_map, hi,
        wptSlot_of_malformed d hm]
    · have hd : d ∈ gpsData := mem_of_getElem_opt gpsData i d hi
      simp only [generateGPXDoc, gpxLoop_snd]
      exact List.mem_filterMap.mpr
        ⟨d, hd, by rw [wptSlot_of_malformed d hm]⟩
  · intro i d lon lat hi hv
    simp [generateGPXDoc, gpxLoop_fst, List.getElem?_map, hi,
      wptSlot_of_pair d lon lat hv]

theorem gpx_malformed_skipped_witness :
    (generateGPXDoc malformedInput).1.Wpt[0]? = some none ∧
      "Bad1".data ∈ (generateGPXDoc malformedInput).2 :=
  (gpx_malformed_skipped malformedInput).1 0
    ⟨"Bad1".data, GoValue.floats [(7 : ℚ)]⟩ rfl rfl

/-- C10: the waypoint array is allocated with the length of the input list
and written positionally, so its length always equals the input length and a
skipped point leaves a nil slot at its own index instead of shortening the
array. -/
theorem gpx_wpt_length_fixed (gpsData : List GeoData) :
    (generateGPXDoc gpsData).1.Wpt.length = gpsData.length ∧
    (∀ (i : ℕ) (d : GeoData), gpsData[i]? = some d → wptSlot d = none →
       (generateGPXDoc gpsData).1.Wpt[i]? = some none) := by
  constructor
  · simp [generateGPXDoc, gpxLoop_fst]
  · intro i d hi hn
    simp [generateGPXDoc, gpxLoop_fst, List.getElem?_map, hi, hn]

theorem gpx_wpt_length_fixed_witness :
    (generateGPXDoc malformedInput).1.Wpt.length = 2 ∧
      (generateGPXDoc malformedInput).1.Wpt[0]? = some none :=
  ⟨(gpx_wpt_length_fixed malformedInput).1,
   (gpx_wpt_length_fixed malformedInput).2 0
     ⟨"Bad1".data, GoValue.floats [(7 : ℚ)]⟩ rfl rfl⟩

/-- C9: the bytes of `out/output.gpx` are a pure function of the input
sequence: they do not depend on the prior contents of the output directory,
and rendering the same sequence a second time (overwriting the first file)
leaves byte-identical content; a file is always produced when creation
succeeds. -/
theorem gpx_render_pure (marshal : GPX → GoStr) (env : RenderEnv)
    (fs₁ fs₂ : FS) (gpsData : List GeoData) (h : env.createOk = true) :
    (GenerateGPX marshal env fs₁ gpsData).1.gpxFile =
      (GenerateGPX marshal env fs₂ gpsData).1.gpxFile ∧
    (GenerateGPX marshal env
        (GenerateGPX marshal env fs₁ gpsData).1 gpsData).1.gpxFile =
      (GenerateGPX marshal env fs₁ gpsData).1.gpxFile ∧
    ∃ bytes, (GenerateGPX marshal env fs₁ gpsData).1.gpxFile = some bytes := by
  simp [GenerateGPX, h]

theorem gpx_render_pure_witness :
    (GenerateGPX marshalW envOkW
        (GenerateGPX marshalW envOkW fsW roundTripInput).1
        roundTripInput).1.gpxFile =
      (GenerateGPX marshalW envOkW fsW roundTripInput).1.gpxFile :=
  (gpx_render_pure marshalW envOkW fsW fsW roundTripInput rfl).2.1

/-- C7: for both renderers, failure to create the destination file ends in
the fatal `log.Fatalf` path, while with the file created a marshal/render
failure only results in a completed run with an error logged — in the GPX
case the file then holds just the XML header (an empty document body). -/
theorem renderer_error_severity (marshal : GPX → GoStr)
    (render : List GeoData → GoStr) (env : RenderEnv) (fs : FS)
    (gpsData : List GeoData) :
    (env.createOk = false →
       (GenerateGPX marshal env fs gpsData).2 = Outcome.fatalExit ∧
       (GenerateMap render env fs gpsData).2 = Outcome.fatalExit) ∧
    (env.createOk = true →
       (GenerateGPX marshal env fs gpsData).2 =
         Outcome.completed (!env.marshalOk) ∧
       (GenerateMap render env fs gpsData).2 =
         Outcome.completed (!env.renderOk) ∧
       (env.marshalOk = false →
         (GenerateGPX marshal env fs gpsData).1.gpxFile = some xmlHeader)) := by
  constructor
  · intro h
    simp [GenerateGPX, GenerateMap, h]
  · intro h
    refine ⟨by simp [GenerateGPX, h], by simp [GenerateMap, h], ?_⟩
    intro hm
    simp [GenerateGPX, h, hm]

theorem renderer_error_severity_witness :
    (GenerateGPX marshalW ⟨false, true, true⟩ fsW roundTripInput).2 =
      Outcome.fatalExit ∧
    (GenerateMap renderW ⟨false, true, true⟩ fsW roundTripInput).2 =
      Outcome.fatalExit :=
  (renderer_error_severity marshalW renderW ⟨false, true, true⟩ fsW
    roundTripInput).1 rfl

/-- C6: when the scan returns an empty point sequence, `run` prints the
informational "No GPS data found in the images." message, leaves the output
directory untouched (no file produced), never hits a fatal path, and — the
result being independent of the render environment — invokes neither
renderer. -/
theorem run_empty_scan_no_output (exif : Exif) (entries : List WalkEntry)
    (marshal : GPX → GoStr) (render : List GeoData → GoStr) (env : RenderEnv)
    (fs : FS) (outputType : GoStr) (calls : List GoStr)
    (h : ExtractGPSData exif entries = Except.ok ([], calls)) :
    runFull exif entries marshal render env fs outputType =
      Except.ok (fs, Outcome.completed false, some RunMsg.noGPSData) := by
  unfold runFull
  rw [h]
  rfl

theorem run_empty_scan_no_output_witness :
    runFull exifNoneW entriesW marshalW renderW ⟨false, false, false⟩ fsW
        "gpx".data =
      Except.ok (fsW, Outcome.completed false, some RunMsg.noGPSData) :=
  run_empty_scan_no_output exifNoneW entriesW marshalW renderW
    ⟨false, false, false⟩ fsW "gpx".data
    ["photos/IMG_1.JPG".data, "photos/bad.jpg".data] (by rfl)

/-- C8 counterexample: it is not the case that only non-directory entries
are passed to the EXIF reader — the walk callback never consults
`info.IsDir()`, so a directory named `photos/album.jpg` is handed to
`ExtractEXIF`. -/
theorem scan_considers_directories :
    ¬ (∀ (exif : Exif) (entries : List WalkEntry) (gps : List GeoData)
         (calls : List GoStr),
        ExtractGPSData exif entries = Except.ok (gps, calls) →
        ∀ e ∈ entries, e.path ∈ calls → e.isDir = false) := by
  intro h
  have hc := h exifNoneW [dirEntryW] [] ["photos/album.jpg".data] (by rfl)
    dirEntryW (by simp) (by decide)
  simp [dirEntryW] at hc

/-- C8 amended: the traversal is recursive and depth-unbounded (delegated to
`filepath.Walk`), but the callback does not restrict to regular files: the
set of entries passed to the EXIF reader is determined by the lowercased
extension alone — directories and other non-regular entries included. -/
theorem scan_calls_by_extension_only (exif : Exif) (entries : List WalkEntry)
    (h : ∀ e ∈ entries, e.walkErr = false) :
    ∃ gps, ExtractGPSData exif entries =
      Except.ok (gps,
        (entries.filter fun e =>
          isSupportedExt (goToLower (filepathExt e.path))).map
          WalkEntry.path) :=
  ⟨scanResult exif entries, extractGPSData_no_err exif entries h⟩

theorem scan_calls_by_extension_only_witness :
    ∃ gps, ExtractGPSData exifNoneW [dirEntryW] =
      Except.ok (gps, ["photos/album.jpg".data]) := by
  obtain ⟨gps, hg⟩ := scan_calls_by_extension_only exifNoneW [dirEntryW]
    (by decide)
  refine ⟨gps, ?_⟩
  rw [hg]
  rfl

end Photos2Map
